import Mathlib

/-!
Shallow embedding of the `azmonitor-metrics` pipeline
(`prometheus_scraper.py`, `azure_monitor_sender.py`,
`nginx_metrics_monitor.py`) and proofs about the claims of its
specification.

Modelling conventions:
* Python `dict[str, V]` becomes an insertion-ordered association list
  `List (String × V)`; `dictInsert` mirrors Python assignment `d[k] = v`
  (overwrite the existing binding when the key exists — dict keys are
  unique, so replacing the first occurrence is exact — and append
  otherwise) and `dictGet` mirrors `d.get(k)`.
* Python floats become `ℚ` (the code performs only comparisons,
  subtraction, division by a positive quantity and `max`, none of which
  depend on floating-point rounding).
* Optional strings (`os.getenv`, constructor parameters, IMDS fields)
  become `Option String`; Python truthiness of such a value is `truthy`
  (`None` and `""` are falsy) and the Python `or` chain is `pyOr`.
* Network effects are inputs: the already-parsed exposition samples are
  the input of `scrape_metrics`, the IMDS document (or its absence) is
  the input of the identity resolution, and the HTTP outcome of each
  `requests.post` (a status code, or a raised transport exception) is an
  input of `send_metrics`.
-/

/-- Python truthiness of an optional string: `None` and `""` are falsy. -/
def truthy : Option String → Bool
  | none => false
  | some s => s ≠ ""

/-- Python `a or b` on optional strings: `a` when truthy, else `b`. -/
def pyOr (a b : Option String) : Option String :=
  if truthy a then a else b

/-- Python `a or b` where `b` is a plain string (the last operand of the
chain is a string, e.g. `os.getenv('AZURE_REGION', 'northeurope')`). -/
def pyOrS (a : Option String) (b : String) : String :=
  match a with
  | some s => if s = "" then b else s
  | none => b

/-- Python dict assignment `d[k] = v`: overwrite the binding when the key
is present (dict keys are unique), append otherwise; insertion order is
preserved either way. -/
def dictInsert {α : Type} (m : List (String × α)) (k : String) (v : α) :
    List (String × α) :=
  match m with
  | [] => [(k, v)]
  | p :: rest => if p.1 = k then (k, v) :: rest else p :: dictInsert rest k v

/-- Python `d.get(k)` (with `None` default). -/
def dictGet {α : Type} (m : List (String × α)) (k : String) : Option α :=
  (m.find? (fun p => p.1 == k)).map (fun p => p.2)

theorem dictGet_nil {α : Type} (k : String) : dictGet ([] : List (String × α)) k = none := rfl

theorem dictGet_cons {α : Type} (p : String × α) (m : List (String × α)) (k : String) :
    dictGet (p :: m) k = if p.1 = k then some p.2 else dictGet m k := by
  by_cases h : p.1 = k <;> simp [dictGet, List.find?_cons, h]

theorem dictGet_dictInsert {α : Type} (m : List (String × α)) (k k' : String) (v : α) :
    dictGet (dictInsert m k v) k' = if k' = k then some v else dictGet m k' := by
  induction m with
  | nil =>
    by_cases h : k' = k
    · simp [dictInsert, dictGet_cons, h]
    · have h2 : ¬ (k = k') := fun hh => h hh.symm
      simp [dictInsert, dictGet_cons, h, h2, dictGet_nil]
  | cons p rest ih =>
    by_cases hpk : p.1 = k
    · simp only [dictInsert, hpk, if_true]
      by_cases h : k' = k
      · simp [dictGet_cons, h]
      · have hne : ¬ (k = k') := fun hh => h hh.symm
        simp [dictGet_cons, hne, h, dictGet_cons, hpk, fun hh : p.1 = k' => h (hh ▸ hpk ▸ rfl)]
    · simp only [dictInsert, hpk, if_false]
      by_cases hpk' : p.1 = k'
      · have h : ¬ (k' = k) := fun hh => hpk (by rw [hpk', hh])
        simp [dictGet_cons, hpk', h]
      · simp [dictGet_cons, hpk', ih]

/-!
## `prometheus_scraper.py`

`PrometheusMetricsScraper.scrape_metrics` iterates over the parsed
exposition samples (name, value, labels) and stores each one in a dict
keyed by the bare metric name; `get_nginx_key_metrics` flattens labels
into synthetic names, then derives the request rate from the previous
sample kept in `_last_requests` / `_last_timestamp`.
-/

/-- One parsed exposition sample, as produced by the Prometheus text
parser: `sample.name`, `sample.value`, `sample.labels` (an
insertion-ordered dict of label name to label value). -/
structure Sample where
  name : String
  value : ℚ
  labels : List (String × String)
deriving DecidableEq, Repr

/-- The per-metric record that `scrape_metrics` stores:
`{'value': ..., 'labels': ..., 'timestamp': time.time()}`. -/
structure MetricData where
  value : ℚ
  labels : List (String × String)
  timestamp : ℚ
deriving DecidableEq, Repr

/-- `PrometheusMetricsScraper.scrape_metrics` (lines 35-49): for every
sample, `metrics[metric_name] = {'value': ..., 'labels': ..., 'timestamp': ...}` —
the dict is keyed by the bare metric name. The already-fetched, parsed
sample list is the input; `now` stands for `time.time()`. -/
def scrape_metrics (samples : List Sample) (now : ℚ) : List (String × MetricData) :=
  samples.foldl (fun metrics s => dictInsert metrics s.name ⟨s.value, s.labels, now⟩) []

/-- The synthetic key built at lines 79-85 of `get_nginx_key_metrics`:
the bare name when there are no labels, otherwise
`f"{metric_name}_{label_suffix}"` where
`label_suffix = "_".join([f"{k}_{v}" for k, v in labels.items()])`
(labels serialized in dict iteration order). -/
def syntheticKey (name : String) (labels : List (String × String)) : String :=
  if labels.isEmpty then name
  else name ++ "_" ++ String.intercalate "_" (labels.map (fun kv => kv.1 ++ "_" ++ kv.2))

/-- The `key_metrics` construction loop of `get_nginx_key_metrics`
(lines 72-89). The `float(...)` conversion cannot fail on values the
exposition parser produced (they are already floats), so the
`except (ValueError, TypeError)` skip never fires in this model. -/
def buildKeyMetrics (all_metrics : List (String × MetricData)) : List (String × ℚ) :=
  all_metrics.foldl
    (fun key_metrics p => dictInsert key_metrics (syntheticKey p.1 p.2.labels) p.2.value) []

/-- The rate-derivation block of `get_nginx_key_metrics` (lines 91-103).
The stored pair `(_last_requests, _last_timestamp)` is the `st` argument
(`none` before the first call, since both attributes are set together);
the function returns the augmented `key_metrics` and the new stored
pair, which the code assigns unconditionally. -/
def deriveRate (st : Option (ℚ × ℚ)) (key_metrics : List (String × ℚ)) (now : ℚ) :
    List (String × ℚ) × (ℚ × ℚ) :=
  let current_requests := (dictGet key_metrics "nginx_http_requests_total").getD 0
  let km :=
    match st with
    | none => key_metrics
    | some (last_requests, last_timestamp) =>
      let time_diff := now - last_timestamp
      if 0 < time_diff then
        dictInsert key_metrics "nginx_requests_per_second"
          (max 0 ((current_requests - last_requests) / time_diff))
      else key_metrics
  (km, (current_requests, now))

/-- `PrometheusMetricsScraper.get_nginx_key_metrics` (lines 61-107):
scrape, early-return `{}` when nothing was scraped (leaving the stored
rate state untouched), flatten into `key_metrics`, then derive the rate
and store the new `(_last_requests, _last_timestamp)` pair. -/
def get_nginx_key_metrics (st : Option (ℚ × ℚ)) (samples : List Sample) (now : ℚ) :
    List (String × ℚ) × Option (ℚ × ℚ) :=
  let all_metrics := scrape_metrics samples now
  if all_metrics.isEmpty then ([], st)
  else
    let r := deriveRate st (buildKeyMetrics all_metrics) now
    (r.1, some r.2)

/-!
## `azure_monitor_sender.py`

`AzureMonitorSender.__init__` resolves subscription / resource group /
resource name / location from the constructor arguments, the
environment and the IMDS document, then builds `resource_uri` (or
leaves it `None`). `send_metrics` short-circuits on a missing
`resource_uri`, acquires a token, and posts each metric of the batch
individually inside one `try` block, counting `success_count`.
-/

/-- Outcome of one `requests.post` call: an HTTP status code, or a
raised transport exception. -/
inductive PostResult where
  | status (code : Nat)
  | exn
deriving DecidableEq, Repr

/-- `response.status_code in [200, 202, 204]` (line 265). -/
def statusAccepted (code : Nat) : Bool :=
  code == 200 || code == 202 || code == 204

/-- The `for metric_name, metric_value in metrics.items()` loop of
`send_metrics` (lines 229-269), with the backend's reaction to each post
attached to the batch entry. Returns
`(posts attempted, success_count, whether an exception escaped the loop)`;
a raised transport exception propagates out of the loop into the
enclosing `except` handler, so the remaining entries are not posted. -/
def sendEach : List ((String × ℚ) × PostResult) → Nat → Nat → Nat × Nat × Bool
  | [], attempted, success_count => (attempted, success_count, false)
  | (_, PostResult.exn) :: _, attempted, success_count =>
      (attempted + 1, success_count, true)
  | (_, PostResult.status c) :: rest, attempted, success_count =>
      sendEach rest (attempted + 1)
        (if statusAccepted c then success_count + 1 else success_count)

/-- `self.credential.get_token(...)` either returns a token or raises
(caught by the enclosing `except`, line 277). -/
inductive TokenOutcome where
  | ok
  | raised
deriving DecidableEq, Repr

/-- Observable behaviour of one `send_metrics` call: its boolean return
value, whether a token was requested, how many posts were attempted and
how many were accepted. -/
structure SendTrace where
  result : Bool
  tokenRequested : Bool
  postsAttempted : Nat
  accepted : Nat
deriving DecidableEq, Repr

/-- `AzureMonitorSender.send_metrics` (lines 209-279): return `False`
at once when `self.resource_uri` is unset (before any token request or
post); otherwise acquire a token (a raise lands in the outer `except`,
returning `False`), post every metric in order until a transport
exception aborts the loop, and finally return
`success_count == len(metrics)` when `success_count > 0`, else `False`. -/
def send_metrics (resource_uri : Option String) (token : TokenOutcome)
    (batch : List ((String × ℚ) × PostResult)) : SendTrace :=
  match resource_uri with
  | none => ⟨false, false, 0, 0⟩
  | some _ =>
    match token with
    | TokenOutcome.raised => ⟨false, true, 0, 0⟩
    | TokenOutcome.ok =>
      let r := sendEach batch 0 0
      let result :=
        if r.2.2 then false
        else if 0 < r.2.1 then r.2.1 == batch.length else false
      ⟨result, true, r.1, r.2.1⟩

/-- The compute document served by IMDS, restricted to the fields the
code reads; `none` models an absent key (`metadata.get(...) is None`). -/
structure ImdsCompute where
  subscriptionId : Option String
  resourceGroupName : Option String
  name : Option String
  location : Option String
  vmScaleSetName : Option String
deriving DecidableEq, Repr

/-- The dict `_get_imds_metadata` returns (lines 139-164): `isVmss` is
the truthiness of `vmScaleSetName`, and `vmScaleSetName` / `instanceId`
are present only in the VMSS case (`instanceId` is the `name` field —
for VMSS the metadata `name` is the instance name). -/
structure ImdsInfo where
  subscriptionId : Option String
  resourceGroupName : Option String
  name : Option String
  location : Option String
  isVmss : Bool
  vmScaleSetName : Option String
  instanceId : Option String
deriving DecidableEq, Repr

def getImdsMetadata (metadata : ImdsCompute) : ImdsInfo :=
  let is_vmss := truthy metadata.vmScaleSetName
  { subscriptionId := metadata.subscriptionId
    resourceGroupName := metadata.resourceGroupName
    name := metadata.name
    location := metadata.location
    isVmss := is_vmss
    vmScaleSetName := if is_vmss then metadata.vmScaleSetName else none
    instanceId := if is_vmss then metadata.name else none }

/-- The constructor parameters of `AzureMonitorSender.__init__`. -/
structure InitArgs where
  subscription_id : Option String
  resource_group : Option String
  resource_name : Option String
deriving DecidableEq, Repr

/-- The environment variables the resolution reads
(`AZURE_SUBSCRIPTION_ID`, `AZURE_RESOURCE_GROUP`, `AZURE_RESOURCE_NAME`,
`AZURE_REGION`); `none` models an unset variable. -/
structure EnvVars where
  azureSubscriptionId : Option String
  azureResourceGroup : Option String
  azureResourceName : Option String
  azureRegion : Option String
deriving DecidableEq, Repr

/-- The identity fields `__init__` stores on `self`. -/
structure SenderIdentity where
  subscription_id : Option String
  resource_group : Option String
  resource_name : Option String
  location : String
  is_vmss : Bool
  vmss_name : Option String
  instance_id : Option String
deriving DecidableEq, Repr

/-- The resolution part of `AzureMonitorSender.__init__` (lines 71-100).
`imds = some metadata` is the branch where `_get_imds_metadata`
succeeded; `imds = none` is the `except` fallback branch, which uses
only the constructor arguments and the environment and resets every
VMSS field. Note line 77: `self.location = imds_info.get('location') or
os.getenv('AZURE_REGION', 'northeurope')` — IMDS wins over the
environment for the location, unlike the three fields above it. -/
def resolveIdentity (args : InitArgs) (env : EnvVars) (imds : Option ImdsCompute) :
    SenderIdentity :=
  match imds with
  | some metadata =>
    let imds_info := getImdsMetadata metadata
    { subscription_id := pyOr (pyOr args.subscription_id env.azureSubscriptionId)
        imds_info.subscriptionId
      resource_group := pyOr (pyOr args.resource_group env.azureResourceGroup)
        imds_info.resourceGroupName
      resource_name := pyOr (pyOr args.resource_name env.azureResourceName)
        imds_info.name
      location := pyOrS imds_info.location (env.azureRegion.getD "northeurope")
      is_vmss := imds_info.isVmss
      vmss_name := imds_info.vmScaleSetName
      instance_id := imds_info.instanceId }
  | none =>
    { subscription_id := pyOr args.subscription_id env.azureSubscriptionId
      resource_group := pyOr args.resource_group env.azureResourceGroup
      resource_name := pyOr args.resource_name env.azureResourceName
      location := env.azureRegion.getD "northeurope"
      is_vmss := false
      vmss_name := none
      instance_id := none }

/-- The `resource_uri` construction of `__init__` (lines 102-125):
requires truthy subscription id and resource group; then a VMSS host
gets the scale-set URI, a host with a truthy resource name gets the VM
URI, and otherwise the URI stays `None`. -/
def buildResourceUri (s : SenderIdentity) : Option String :=
  if truthy s.subscription_id && truthy s.resource_group then
    if s.is_vmss && truthy s.vmss_name then
      some ("/subscriptions/" ++ s.subscription_id.getD "" ++ "/resourceGroups/"
        ++ s.resource_group.getD ""
        ++ "/providers/Microsoft.Compute/virtualMachineScaleSets/" ++ s.vmss_name.getD "")
    else if truthy s.resource_name then
      some ("/subscriptions/" ++ s.subscription_id.getD "" ++ "/resourceGroups/"
        ++ s.resource_group.getD ""
        ++ "/providers/Microsoft.Compute/virtualMachines/" ++ s.resource_name.getD "")
    else none
  else none

/-!
## `nginx_metrics_monitor.py`

`NginxMetricsMonitor.run` performs cycles of `collect_and_send_metrics`
inside `while self.running`, with a `try` whose `except Exception`
handler increments `consecutive_failures` and continues without
checking the threshold; the threshold check (`>= 5`, `break`) only runs
on the normal path after an unsuccessful cycle. `main` calls
`monitor.run()` with no `sys.exit` after it, so the process exits 0
when `run` returns; only a failed startup health check exits via
`sys.exit(1)`.
-/

/-- `collect_and_send_metrics` (lines 73-108): an unexpected exception
inside the cycle is caught and reported as `False`; an empty metrics
map returns `False` before any send; otherwise the result is
`send_metrics`'s boolean. -/
def collect_and_send_metrics (raised : Bool) (metrics : List (String × ℚ))
    (sendResult : Bool) : Bool :=
  if raised then false
  else if metrics.isEmpty then false
  else sendResult

/-- What one iteration of the `while` loop observes: `collect` is the
boolean from `collect_and_send_metrics` (which already swallows
exceptions raised inside the cycle); `loopExn` is an exception raised
in the loop body itself, landing in the `except Exception` handler at
lines 146-149. -/
inductive CycleOutcome where
  | ok
  | collectFailed
  | loopExn
deriving DecidableEq, Repr

/-- Why `run` returned. -/
inductive StopReason where
  | thresholdTripped
  | externalStop
deriving DecidableEq, Repr

/-- The `while self.running` loop of `run` (lines 123-149), driven by
the finite list of cycle outcomes that occur before an external signal
clears `running` (an exhausted list models the signal). Arguments:
remaining outcomes, `consecutive_failures`, cycles executed so far.
On `ok` the counter resets; on `collectFailed` it increments and the
loop breaks as soon as it reaches the threshold; on `loopExn`
(the `except Exception` handler) it increments with no threshold
check. Returns the number of cycles executed and why the loop ended. -/
def runLoop (threshold : Nat) :
    List CycleOutcome → Nat → Nat → Nat × StopReason
  | [], _, executed => (executed, StopReason.externalStop)
  | CycleOutcome.ok :: rest, _, executed =>
      runLoop threshold rest 0 (executed + 1)
  | CycleOutcome.collectFailed :: rest, consecutive_failures, executed =>
      if threshold ≤ consecutive_failures + 1 then
        (executed + 1, StopReason.thresholdTripped)
      else
        runLoop threshold rest (consecutive_failures + 1) (executed + 1)
  | CycleOutcome.loopExn :: rest, consecutive_failures, executed =>
      runLoop threshold rest (consecutive_failures + 1) (executed + 1)

/-- `NginxMetricsMonitor.run` with the hard-coded
`max_consecutive_failures = 5` (line 121), starting from
`consecutive_failures = 0`. -/
def run (outcomes : List CycleOutcome) : Nat × StopReason :=
  runLoop 5 outcomes 0 0

/-- The process exit status of `main` in the default (continuous) mode
(lines 225-226 plus the startup check at lines 115-117): `sys.exit(1)`
when the initial health check fails, otherwise `monitor.run()` runs to
completion and `main` returns normally — the interpreter then exits
with status 0 whatever made the loop stop. -/
def mainExitCode (healthOk : Bool) (outcomes : List CycleOutcome) : Nat :=
  if healthOk then
    match run outcomes with
    | _ => 0
  else 1

/-!
## Claims about the scraper (C1, C4)
-/

/-- The last sample of the list carrying the given bare metric name, if
any (vocabulary for describing the overwrite behaviour of
`scrape_metrics`). -/
def lastSampleNamed (n : String) : List Sample → Option Sample
  | [] => none
  | s :: rest =>
    match lastSampleNamed n rest with
    | some t => some t
    | none => if s.name = n then some s else none

theorem scrape_metrics_aux (samples : List Sample) (acc : List (String × MetricData))
    (now : ℚ) (n : String) :
    dictGet (samples.foldl
        (fun metrics s => dictInsert metrics s.name ⟨s.value, s.labels, now⟩) acc) n =
      match lastSampleNamed n samples with
      | some s => some ⟨s.value, s.labels, now⟩
      | none => dictGet acc n := by
  induction samples generalizing acc with
  | nil => rfl
  | cons s rest ih =>
    simp only [List.foldl_cons, lastSampleNamed]
    rw [ih]
    cases h : lastSampleNamed n rest with
    | some t => simp
    | none =>
      simp only
      rw [dictGet_dictInsert]
      by_cases hn : s.name = n
      · simp [hn]
      · have hn2 : ¬ (n = s.name) := fun hh => hn hh.symm
        simp [hn, hn2]

/-- C1 counterexample: two samples share the bare name `nginx_up` but
carry distinct label sets; the scrape result holds a single entry (the
second sample overwrote the first), and the flattened metrics contain
only the second sample's synthetic key — `nginx_up_host_a` is gone. -/
theorem scrape_collapses_distinct_label_sets :
    scrape_metrics
        [⟨"nginx_up", 1, [("host", "a")]⟩, ⟨"nginx_up", 2, [("host", "b")]⟩] 0
      = [("nginx_up", ⟨2, [("host", "b")], 0⟩)] ∧
    (get_nginx_key_metrics none
        [⟨"nginx_up", 1, [("host", "a")]⟩, ⟨"nginx_up", 2, [("host", "b")]⟩] 0).1
      = [("nginx_up_host_b", 2)] ∧
    dictGet (get_nginx_key_metrics none
        [⟨"nginx_up", 1, [("host", "a")]⟩, ⟨"nginx_up", 2, [("host", "b")]⟩] 0).1
      "nginx_up_host_a" = none := by
  refine ⟨rfl, rfl, rfl⟩

/-- C1 amended: `scrape_metrics` keys its dict by the bare metric name,
so for every payload and every name the stored entry is exactly the
*last* sample carrying that name — samples sharing a name but distinct
label sets are collapsed, earlier ones overwritten, and only the
survivor later receives a synthetic labelled key. -/
theorem scrape_metrics_keeps_last_sample_per_name
    (samples : List Sample) (now : ℚ) (n : String) :
    dictGet (scrape_metrics samples now) n =
      (lastSampleNamed n samples).map (fun s => (⟨s.value, s.labels, now⟩ : MetricData)) := by
  unfold scrape_metrics
  rw [scrape_metrics_aux]
  cases h : lastSampleNamed n samples <;> simp [dictGet_nil]

/-- C4 counterexample: the same label set presented in two different
insertion orders yields two different synthetic keys, because the
serialization follows dict iteration order and is not sorted by label
key. -/
theorem syntheticKey_depends_on_label_order :
    List.Perm [("code", "200"), ("method", "get")] [("method", "get"), ("code", "200")] ∧
    syntheticKey "nginx_responses" [("code", "200"), ("method", "get")] ≠
      syntheticKey "nginx_responses" [("method", "get"), ("code", "200")] := by
  constructor
  · exact List.Perm.swap _ _ _
  · decide

/-- C4 amended: the synthetic key serializes labels in their iteration
order, with no sorting; identical label sets therefore map to the same
key exactly when presented in the same order — in particular whenever
both samples present their labels sorted by label key. -/
theorem syntheticKey_eq_of_perm_of_sorted (name : String)
    (l1 l2 : List (String × String)) (hp : l1.Perm l2)
    (h1 : l1.Sorted (fun a b => a.1 < b.1)) (h2 : l2.Sorted (fun a b => a.1 < b.1)) :
    syntheticKey name l1 = syntheticKey name l2 := by
  have hanti : ∀ a b : String × String, a.1 < b.1 → b.1 < a.1 → a = b :=
    fun a b hab hba => absurd (hab.trans hba) (lt_irrefl _)
  haveI : IsAntisymm (String × String) (fun a b => a.1 < b.1) := ⟨hanti⟩
  rw [List.eq_of_perm_of_sorted hp h1 h2]

/-- Witness for `syntheticKey_eq_of_perm_of_sorted` at a concrete
sorted label list. -/
theorem syntheticKey_eq_of_perm_of_sorted_holds :
    syntheticKey "nginx_responses" [("code", "200"), ("method", "get")] =
      syntheticKey "nginx_responses" [("code", "200"), ("method", "get")] :=
  syntheticKey_eq_of_perm_of_sorted "nginx_responses" _ _ (List.Perm.refl _)
    (by
      simp only [List.sorted_cons, List.mem_singleton, List.sorted_singleton,
        forall_eq, List.not_mem_nil, false_implies, implies_true, and_true]
      rw [String.lt_iff_toList_lt]; decide)
    (by
      simp only [List.sorted_cons, List.mem_singleton, List.sorted_singleton,
        forall_eq, List.not_mem_nil, false_implies, implies_true, and_true]
      rw [String.lt_iff_toList_lt]; decide)

/-!
## Claims about rate derivation (C6, C7)

Shared facts about the three control paths of the rate block: no stored
state, non-positive elapsed interval, positive elapsed interval; and the
unconditional state update.
-/

theorem deriveRate_no_state (km : List (String × ℚ)) (now : ℚ) :
    (deriveRate none km now).1 = km := rfl

theorem deriveRate_nonpos_interval (km : List (String × ℚ)) (lastReq lastTs now : ℚ)
    (h : now - lastTs ≤ 0) :
    (deriveRate (some (lastReq, lastTs)) km now).1 = km := by
  simp only [deriveRate, not_lt.mpr h, if_false]

theorem deriveRate_pos_interval (km : List (String × ℚ)) (lastReq lastTs now : ℚ)
    (h : 0 < now - lastTs) :
    dictGet (deriveRate (some (lastReq, lastTs)) km now).1 "nginx_requests_per_second"
      = some (max 0 (((dictGet km "nginx_http_requests_total").getD 0 - lastReq)
          / (now - lastTs))) := by
  simp only [deriveRate, h, if_pos]
  rw [dictGet_dictInsert]
  simp

theorem deriveRate_state (st : Option (ℚ × ℚ)) (km : List (String × ℚ)) (now : ℚ) :
    (deriveRate st km now).2 = ((dictGet km "nginx_http_requests_total").getD 0, now) := by
  cases st with
  | none => rfl
  | some p => cases p; rfl

/-- C6 counterexample: a *subsequent* observation (stored state present)
whose timestamp equals the stored timestamp yields no rate entry —
`time_diff > 0` fails — even though the claim promises a non-negative
rate on every subsequent observation; the state is still replaced. -/
theorem deriveRate_equal_timestamp_no_rate :
    (deriveRate (some (100, 5)) [("nginx_http_requests_total", 150)] 5).1
      = [("nginx_http_requests_total", 150)] ∧
    dictGet (deriveRate (some (100, 5)) [("nginx_http_requests_total", 150)] 5).1
      "nginx_requests_per_second" = none ∧
    (deriveRate (some (100, 5)) [("nginx_http_requests_total", 150)] 5).2 = (150, 5) := by
  have h : (5 : ℚ) - 5 ≤ 0 := by norm_num
  refine ⟨deriveRate_nonpos_interval _ 100 5 5 h, ?_, ?_⟩
  · rw [deriveRate_nonpos_interval _ 100 5 5 h]
    rfl
  · rw [deriveRate_state]
    rfl

/-- C6 amended: the first observation (no stored state) adds no rate
entry; every subsequent observation whose timestamp strictly exceeds
the stored timestamp yields a rate entry that is non-negative — also
when the raw counter decreased, thanks to the `max(0.0, ...)` clamp —
and the stored state is replaced by `(current value, current
timestamp)` on every call that reaches the rate block. -/
theorem deriveRate_first_none_then_nonneg (st : Option (ℚ × ℚ))
    (km : List (String × ℚ)) (now lastReq lastTs : ℚ) (h : lastTs < now) :
    (deriveRate none km now).1 = km ∧
    (∃ r : ℚ, dictGet (deriveRate (some (lastReq, lastTs)) km now).1
        "nginx_requests_per_second" = some r ∧ 0 ≤ r) ∧
    (deriveRate st km now).2 = ((dictGet km "nginx_http_requests_total").getD 0, now) := by
  have hd : (0 : ℚ) < now - lastTs := sub_pos.mpr h
  exact ⟨deriveRate_no_state km now,
    ⟨max 0 (((dictGet km "nginx_http_requests_total").getD 0 - lastReq) / (now - lastTs)),
      deriveRate_pos_interval km lastReq lastTs now hd, le_max_left _ _⟩,
    deriveRate_state st km now⟩

/-- Witness for `deriveRate_first_none_then_nonneg`: totals 1000 then
1050 observed 10 seconds apart. -/
theorem deriveRate_first_none_then_nonneg_holds :
    (deriveRate none [("nginx_http_requests_total", (1050 : ℚ))] 10).1
      = [("nginx_http_requests_total", 1050)] ∧
    (∃ r : ℚ, dictGet (deriveRate (some (1000, 0))
        [("nginx_http_requests_total", (1050 : ℚ))] 10).1
        "nginx_requests_per_second" = some r ∧ 0 ≤ r) ∧
    (deriveRate none [("nginx_http_requests_total", (1050 : ℚ))] 10).2
      = ((dictGet [("nginx_http_requests_total", (1050 : ℚ))]
          "nginx_http_requests_total").getD 0, 10) :=
  deriveRate_first_none_then_nonneg none [("nginx_http_requests_total", 1050)]
    10 1000 0 (by norm_num)

/-- C7 counterexample: an elapsed interval of half a millisecond (below
the 1 ms floor the claim describes) still computes a rate — the code's
only guard is `time_diff > 0`, so a sub-millisecond interval yields an
inflated rate (here 2000 requests/second from one request) instead of
`none`. -/
theorem deriveRate_sub_millisecond_interval_computes_rate :
    ((1 : ℚ)/2000 < 1/1000) ∧
    dictGet (deriveRate (some (0, 0)) [("nginx_http_requests_total", 1)] (1/2000)).1
      "nginx_requests_per_second" = some 2000 := by
  constructor
  · norm_num
  · have h : (0 : ℚ) < 1/2000 - 0 := by norm_num
    rw [deriveRate_pos_interval _ 0 0 (1/2000) h]
    have hg : (dictGet [("nginx_http_requests_total", (1 : ℚ))]
        "nginx_http_requests_total").getD 0 = 1 := rfl
    rw [hg]
    norm_num

/-- C7 amended: rate derivation never divides by zero because a
non-positive elapsed interval (`now <= lastTimestamp`) skips the
computation and yields no rate; but every strictly positive interval,
however small, computes the (clamped) rate — the guard is `> 0`, with
no minimum-interval floor. -/
theorem deriveRate_guard_is_zero_not_one_millisecond
    (km : List (String × ℚ)) (lastReq lastTs now : ℚ) :
    (now - lastTs ≤ 0 → (deriveRate (some (lastReq, lastTs)) km now).1 = km) ∧
    (0 < now - lastTs →
      dictGet (deriveRate (some (lastReq, lastTs)) km now).1 "nginx_requests_per_second"
        = some (max 0 (((dictGet km "nginx_http_requests_total").getD 0 - lastReq)
            / (now - lastTs)))) :=
  ⟨deriveRate_nonpos_interval km lastReq lastTs now,
   deriveRate_pos_interval km lastReq lastTs now⟩

/-- Witness for `deriveRate_guard_is_zero_not_one_millisecond`: a zero
interval (no rate added) and a one-second interval (rate present). -/
theorem deriveRate_guard_is_zero_not_one_millisecond_holds :
    (deriveRate (some (3, 5)) [("nginx_connections_active", (4 : ℚ))] 5).1
      = [("nginx_connections_active", 4)] ∧
    dictGet (deriveRate (some (3, 5)) [("nginx_connections_active", (4 : ℚ))] 6).1
      "nginx_requests_per_second"
      = some (max 0 (((dictGet [("nginx_connections_active", (4 : ℚ))]
          "nginx_http_requests_total").getD 0 - 3) / (6 - 5))) :=
  ⟨(deriveRate_guard_is_zero_not_one_millisecond _ 3 5 5).1 (by norm_num),
   (deriveRate_guard_is_zero_not_one_millisecond _ 3 5 6).2 (by norm_num)⟩

/-!
## Claims about metric forwarding (C3, C5, C10)

Helper facts about the per-metric send loop.
-/

/-- Whether the backend's reaction to one post counts as accepted. -/
def isAcceptedPost : PostResult → Bool
  | PostResult.status c => statusAccepted c
  | PostResult.exn => false

/-- A delivered (not raised) response that is not accepted. -/
def isRejectedStatus : PostResult → Bool
  | PostResult.status c => !statusAccepted c
  | PostResult.exn => false

/-- How many entries of the batch the backend accepts. -/
def countAccepted : List ((String × ℚ) × PostResult) → Nat
  | [] => 0
  | (_, PostResult.status c) :: rest =>
      (if statusAccepted c then 1 else 0) + countAccepted rest
  | (_, PostResult.exn) :: rest => countAccepted rest

theorem isAcceptedPost_ne_exn {pr : PostResult} (h : isAcceptedPost pr = true) :
    pr ≠ PostResult.exn := by
  cases pr <;> simp_all [isAcceptedPost]

theorem isRejectedStatus_ne_exn {pr : PostResult} (h : isRejectedStatus pr = true) :
    pr ≠ PostResult.exn := by
  cases pr <;> simp_all [isRejectedStatus]

theorem countAccepted_append (l1 l2 : List ((String × ℚ) × PostResult)) :
    countAccepted (l1 ++ l2) = countAccepted l1 + countAccepted l2 := by
  induction l1 with
  | nil => simp [countAccepted]
  | cons p rest ih =>
    obtain ⟨m, pr⟩ := p
    cases pr with
    | status c => simp [countAccepted, ih]; omega
    | exn => simp [countAccepted, ih]

theorem countAccepted_of_all_accepted (l : List ((String × ℚ) × PostResult))
    (h : ∀ p ∈ l, isAcceptedPost p.2 = true) : countAccepted l = l.length := by
  induction l with
  | nil => rfl
  | cons p rest ih =>
    obtain ⟨m, pr⟩ := p
    have hp := h (m, pr) (List.mem_cons_self _ _)
    cases pr with
    | exn => simp [isAcceptedPost] at hp
    | status c =>
      simp only [isAcceptedPost] at hp
      simp [countAccepted, hp, ih (fun q hq => h q (List.mem_cons_of_mem _ hq))]
      omega

theorem countAccepted_of_all_rejected (l : List ((String × ℚ) × PostResult))
    (h : ∀ p ∈ l, isRejectedStatus p.2 = true) : countAccepted l = 0 := by
  induction l with
  | nil => rfl
  | cons p rest ih =>
    obtain ⟨m, pr⟩ := p
    have hp := h (m, pr) (List.mem_cons_self _ _)
    cases pr with
    | exn => simp [isRejectedStatus] at hp
    | status c =>
      simp only [isRejectedStatus, Bool.not_eq_true'] at hp
      simp [countAccepted, hp, ih (fun q hq => h q (List.mem_cons_of_mem _ hq))]

theorem sendEach_no_exn (batch : List ((String × ℚ) × PostResult)) :
    ∀ att succ, (∀ p ∈ batch, p.2 ≠ PostResult.exn) →
    sendEach batch att succ = (att + batch.length, succ + countAccepted batch, false) := by
  induction batch with
  | nil => intro att succ _; simp [sendEach, countAccepted]
  | cons p rest ih =>
    intro att succ h
    obtain ⟨m, pr⟩ := p
    cases pr with
    | exn => exact absurd rfl (h (m, PostResult.exn) (List.mem_cons_self _ _))
    | status c =>
      simp only [sendEach]
      rw [ih _ _ (fun q hq => h q (List.mem_cons_of_mem _ hq))]
      by_cases hc : statusAccepted c <;>
        simp [hc, countAccepted, Prod.mk.injEq, List.length_cons] <;> omega

theorem sendEach_append_no_exn (l1 l2 : List ((String × ℚ) × PostResult)) :
    ∀ att succ, (∀ p ∈ l1, p.2 ≠ PostResult.exn) →
    sendEach (l1 ++ l2) att succ
      = sendEach l2 (att + l1.length) (succ + countAccepted l1) := by
  induction l1 with
  | nil => intro att succ _; simp [countAccepted]
  | cons p rest ih =>
    intro att succ h
    obtain ⟨m, pr⟩ := p
    cases pr with
    | exn => exact absurd rfl (h (m, PostResult.exn) (List.mem_cons_self _ _))
    | status c =>
      simp only [List.cons_append, sendEach, List.append_eq]
      rw [ih _ _ (fun q hq => h q (List.mem_cons_of_mem _ hq))]
      by_cases hc : statusAccepted c <;> simp [hc, countAccepted] <;> congr 1 <;> omega

/-- C3 counterexample: a batch of two metrics where posting the first
raises a transport exception. The exception lands in the enclosing
`except` handler, so only one post is attempted — the second metric is
never tried — and `send_metrics` returns `False` for the whole batch,
contradicting "every metric in the batch is attempted regardless of
earlier per-metric outcomes". -/
theorem send_metrics_exception_aborts_batch :
    send_metrics
        (some "/subscriptions/s/resourceGroups/g/providers/Microsoft.Compute/virtualMachines/v")
        TokenOutcome.ok
        [(("nginx_connections_active", 4), PostResult.exn),
         (("nginx_http_requests_total", 1000), PostResult.status 200)]
      = ⟨false, true, 1, 0⟩ ∧
    [(("nginx_connections_active", (4 : ℚ)), PostResult.exn),
     (("nginx_http_requests_total", 1000), PostResult.status 200)].length = 2 :=
  ⟨rfl, rfl⟩

/-- C3 amended: a non-accepted HTTP response counts the metric as
not-accepted and does not abort the batch — an exception-free batch
attempts every metric whatever the statuses — but a raised transport
exception propagates out of the per-metric loop into the surrounding
handler: the metrics after it are never attempted and the whole call
returns failure. -/
theorem send_metrics_statuses_continue_exception_aborts (uri : String)
    (pre post : List ((String × ℚ) × PostResult)) (x : (String × ℚ) × PostResult)
    (hpre : ∀ p ∈ pre, p.2 ≠ PostResult.exn)
    (hpost : ∀ p ∈ post, p.2 ≠ PostResult.exn)
    (hx : x.2 = PostResult.exn) :
    (send_metrics (some uri) TokenOutcome.ok (pre ++ post)).postsAttempted
      = pre.length + post.length ∧
    (send_metrics (some uri) TokenOutcome.ok (pre ++ x :: post)).postsAttempted
      = pre.length + 1 ∧
    (send_metrics (some uri) TokenOutcome.ok (pre ++ x :: post)).result = false := by
  obtain ⟨m, pr⟩ := x
  simp only at hx
  subst hx
  have hboth : ∀ p ∈ pre ++ post, p.2 ≠ PostResult.exn := by
    intro p hp
    rcases List.mem_append.mp hp with h | h
    · exact hpre p h
    · exact hpost p h
  refine ⟨?_, ?_, ?_⟩
  · simp only [send_metrics]
    rw [sendEach_no_exn _ 0 0 hboth]
    simp
  · simp only [send_metrics]
    rw [sendEach_append_no_exn _ _ 0 0 hpre]
    simp [sendEach]
  · simp only [send_metrics]
    rw [sendEach_append_no_exn _ _ 0 0 hpre]
    simp [sendEach]

/-- Witness for `send_metrics_statuses_continue_exception_aborts`: one
rejected post, then an exception, then an accepted post. -/
theorem send_metrics_statuses_continue_exception_aborts_holds :
    (send_metrics (some "/u") TokenOutcome.ok
        [(("m1", (1 : ℚ)), PostResult.status 500),
         (("m2", 2), PostResult.status 200)]).postsAttempted = 1 + 1 ∧
    (send_metrics (some "/u") TokenOutcome.ok
        ([(("m1", (1 : ℚ)), PostResult.status 500)] ++
          (("mx", 3), PostResult.exn) :: [(("m2", 2), PostResult.status 200)])).postsAttempted
      = 1 + 1 ∧
    (send_metrics (some "/u") TokenOutcome.ok
        ([(("m1", (1 : ℚ)), PostResult.status 500)] ++
          (("mx", 3), PostResult.exn) :: [(("m2", 2), PostResult.status 200)])).result
      = false :=
  send_metrics_statuses_continue_exception_aborts "/u"
    [(("m1", 1), PostResult.status 500)] [(("m2", 2), PostResult.status 200)]
    (("mx", 3), PostResult.exn) (by decide) (by decide) rfl

/-- C5 counterexample: at `K = N = 1` (the backend accepts the first
`K` metrics and rejects the remaining `N - K = 0`), `send_metrics`
returns `True`, not the `success=false` the claim asserts for all
`0 <= K <= N`. -/
theorem send_metrics_all_accepted_returns_true :
    send_metrics
        (some "/subscriptions/s/resourceGroups/g/providers/Microsoft.Compute/virtualMachines/v")
        TokenOutcome.ok [(("nginx_up", 1), PostResult.status 200)]
      = ⟨true, true, 1, 1⟩ :=
  rfl

/-- C5 amended: with the first `K` metrics accepted and the remaining
`N - K` rejected (delivered, non-accepted statuses), `send_metrics`
attempts all `N` posts, counts exactly `K` accepted, and returns
success precisely when `0 < K` and `K = N`; so for `0 <= K < N` it
returns failure with the true accepted count, while `K = N > 0` (no
rejections) yields success — and `K = N = 0` yields failure (claim
C10). -/
theorem send_metrics_first_K_accepted (uri : String)
    (l1 l2 : List ((String × ℚ) × PostResult))
    (h1 : ∀ p ∈ l1, isAcceptedPost p.2 = true)
    (h2 : ∀ p ∈ l2, isRejectedStatus p.2 = true) :
    (send_metrics (some uri) TokenOutcome.ok (l1 ++ l2)).postsAttempted
      = l1.length + l2.length ∧
    (send_metrics (some uri) TokenOutcome.ok (l1 ++ l2)).accepted = l1.length ∧
    ((send_metrics (some uri) TokenOutcome.ok (l1 ++ l2)).result = true ↔
      (0 < l1.length ∧ l2.length = 0)) := by
  have hboth : ∀ p ∈ l1 ++ l2, p.2 ≠ PostResult.exn := by
    intro p hp
    rcases List.mem_append.mp hp with h | h
    · exact isAcceptedPost_ne_exn (h1 p h)
    · exact isRejectedStatus_ne_exn (h2 p h)
  have hcount : countAccepted (l1 ++ l2) = l1.length := by
    rw [countAccepted_append, countAccepted_of_all_accepted l1 h1,
      countAccepted_of_all_rejected l2 h2]
    omega
  have heq : send_metrics (some uri) TokenOutcome.ok (l1 ++ l2)
      = ⟨if 0 < l1.length then (l1.length == l1.length + l2.length : Bool) else false,
         true, l1.length + l2.length, l1.length⟩ := by
    simp only [send_metrics]
    rw [sendEach_no_exn _ 0 0 hboth]
    simp [hcount, List.length_append]
  rw [heq]
  refine ⟨rfl, rfl, ?_⟩
  split
  · rename_i hpos
    simp only [beq_iff_eq]
    omega
  · rename_i hpos
    simp only [Bool.false_eq_true, false_iff]
    omega

/-- Witness for `send_metrics_first_K_accepted`: one accepted post
followed by one rejected post (`K = 1`, `N = 2`). -/
theorem send_metrics_first_K_accepted_holds :
    (send_metrics (some "/u") TokenOutcome.ok
        ([(("m1", (1 : ℚ)), PostResult.status 200)] ++
          [(("m2", 2), PostResult.status 400)])).postsAttempted = 1 + 1 ∧
    (send_metrics (some "/u") TokenOutcome.ok
        ([(("m1", (1 : ℚ)), PostResult.status 200)] ++
          [(("m2", 2), PostResult.status 400)])).accepted = 1 ∧
    ((send_metrics (some "/u") TokenOutcome.ok
        ([(("m1", (1 : ℚ)), PostResult.status 200)] ++
          [(("m2", 2), PostResult.status 400)])).result = true ↔
      (0 < 1 ∧ 1 = 0)) :=
  send_metrics_first_K_accepted "/u"
    [(("m1", 1), PostResult.status 200)] [(("m2", 2), PostResult.status 400)]
    (by decide) (by decide)

/-- C10: forwarding an empty batch returns failure — with no metrics the
loop never runs, `success_count` stays 0, the `success_count > 0` check
fails and `send_metrics` returns `False` (whatever the resource URI and
token outcome), so a vacuously all-accepted batch is reported as a
failed cycle. -/
theorem send_metrics_empty_batch_fails (uri : Option String) (token : TokenOutcome) :
    (send_metrics uri token []).result = false ∧
    (send_metrics uri token []).accepted = 0 := by
  cases uri <;> cases token <;> exact ⟨rfl, rfl⟩

/-!
## Claims about identity resolution (C8, C9)
-/

theorem pyOr_truthy_left (a b : Option String) (h : truthy a = true) : pyOr a b = a := by
  simp [pyOr, h]

theorem pyOrS_not_truthy (a : Option String) (d : String) (h : truthy a = false) :
    pyOrS a d = d := by
  cases a with
  | none => rfl
  | some s =>
    simp only [truthy] at h
    have hs : s = "" := by
      by_contra hne
      simp [hne] at h
    simp [pyOrS, hs]

/-- C8 counterexample: the environment override `AZURE_REGION=eastus` is
truthy, yet with an IMDS document whose `location` is `westus` the
resolved location is `westus` — line 77 consults IMDS *before* the
override, so the explicit region override loses. -/
theorem location_prefers_imds_over_region_override :
    (resolveIdentity ⟨none, none, none⟩ ⟨none, none, none, some "eastus"⟩
        (some ⟨some "sub-1", some "rg-1", some "vm-1", some "westus", none⟩)).location
      = "westus" ∧
    truthy (some "eastus") = true ∧
    "westus" ≠ "eastus" :=
  ⟨rfl, rfl, by decide⟩

/-- C8 amended: the constructor-argument overrides do take precedence
for subscription id, resource group and resource name; but for the
region the metadata-service `location` takes precedence over the
`AZURE_REGION` override, and the region falls back to the fixed value
`northeurope` only when neither IMDS nor `AZURE_REGION` supplies one. -/
theorem resolveIdentity_override_precedence (args : InitArgs) (env : EnvVars)
    (imds : Option ImdsCompute) (metadata : ImdsCompute) (s : String) :
    (truthy args.subscription_id = true →
      (resolveIdentity args env imds).subscription_id = args.subscription_id) ∧
    (truthy args.resource_group = true →
      (resolveIdentity args env imds).resource_group = args.resource_group) ∧
    (truthy args.resource_name = true →
      (resolveIdentity args env imds).resource_name = args.resource_name) ∧
    (metadata.location = some s → s ≠ "" →
      (resolveIdentity args env (some metadata)).location = s) ∧
    (truthy metadata.location = false → env.azureRegion = none →
      (resolveIdentity args env (some metadata)).location = "northeurope") ∧
    (env.azureRegion = none → (resolveIdentity args env none).location = "northeurope") := by
  refine ⟨?_, ?_, ?_, ?_, ?_, ?_⟩
  · intro h
    cases imds with
    | none => simp only [resolveIdentity]; rw [pyOr_truthy_left _ _ h]
    | some m =>
      simp only [resolveIdentity]
      rw [pyOr_truthy_left _ _ h, pyOr_truthy_left _ _ h]
  · intro h
    cases imds with
    | none => simp only [resolveIdentity]; rw [pyOr_truthy_left _ _ h]
    | some m =>
      simp only [resolveIdentity]
      rw [pyOr_truthy_left _ _ h, pyOr_truthy_left _ _ h]
  · intro h
    cases imds with
    | none => simp only [resolveIdentity]; rw [pyOr_truthy_left _ _ h]
    | some m =>
      simp only [resolveIdentity]
      rw [pyOr_truthy_left _ _ h, pyOr_truthy_left _ _ h]
  · intro hs hne
    simp [resolveIdentity, getImdsMetadata, hs, pyOrS, hne]
  · intro h henv
    simp only [resolveIdentity, getImdsMetadata]
    rw [pyOrS_not_truthy _ _ h, henv]
    rfl
  · intro henv
    simp only [resolveIdentity]
    rw [henv]
    rfl

/-- Witness for `resolveIdentity_override_precedence`: a truthy
constructor override for the subscription id wins; the IMDS location
wins; with no IMDS and no `AZURE_REGION` the location defaults. -/
theorem resolveIdentity_override_precedence_holds :
    (resolveIdentity (⟨some "argsub", some "argrg", some "argvm"⟩ : InitArgs)
        (⟨none, none, none, some "eastus"⟩ : EnvVars)
        (some (⟨some "msub", some "mrg", some "mvm", some "westus", none⟩ : ImdsCompute))).subscription_id
      = some "argsub" ∧
    (resolveIdentity (⟨some "argsub", some "argrg", some "argvm"⟩ : InitArgs)
        (⟨none, none, none, some "eastus"⟩ : EnvVars)
        (some (⟨some "msub", some "mrg", some "mvm", some "westus", none⟩ : ImdsCompute))).location
      = "westus" ∧
    (resolveIdentity (⟨some "argsub", some "argrg", some "argvm"⟩ : InitArgs)
        (⟨none, none, none, none⟩ : EnvVars) none).location = "northeurope" :=
  ⟨(resolveIdentity_override_precedence
      ⟨some "argsub", some "argrg", some "argvm"⟩
      ⟨none, none, none, some "eastus"⟩
      (some ⟨some "msub", some "mrg", some "mvm", some "westus", none⟩)
      ⟨some "msub", some "mrg", some "mvm", some "westus", none⟩ "westus").1 (by decide),
   (resolveIdentity_override_precedence
      ⟨some "argsub", some "argrg", some "argvm"⟩
      ⟨none, none, none, some "eastus"⟩
      (some ⟨some "msub", some "mrg", some "mvm", some "westus", none⟩)
      ⟨some "msub", some "mrg", some "mvm", some "westus", none⟩ "westus").2.2.2.1
      rfl (by decide),
   (resolveIdentity_override_precedence
      ⟨some "argsub", some "argrg", some "argvm"⟩
      ⟨none, none, none, none⟩ none
      ⟨none, none, none, none, none⟩ "x").2.2.2.2.2 rfl⟩

theorem resolveIdentity_is_vmss_truthy (args : InitArgs) (env : EnvVars)
    (imds : Option ImdsCompute) :
    (resolveIdentity args env imds).is_vmss = true →
    truthy (resolveIdentity args env imds).vmss_name = true := by
  cases imds with
  | none => intro h; simp [resolveIdentity] at h
  | some m =>
    intro h
    simp only [resolveIdentity, getImdsMetadata] at h ⊢
    simp [h]

theorem buildResourceUri_eq_none_iff (s : SenderIdentity)
    (hinv : s.is_vmss = true → truthy s.vmss_name = true) :
    buildResourceUri s = none ↔
      (truthy s.subscription_id = false ∨ truthy s.resource_group = false ∨
        (s.is_vmss = false ∧ truthy s.resource_name = false)) := by
  unfold buildResourceUri
  cases hsub : truthy s.subscription_id with
  | false => simp [hsub]
  | true =>
    cases hrg : truthy s.resource_group with
    | false => simp [hrg]
    | true =>
      cases hvm : s.is_vmss with
      | false =>
        cases hname : truthy s.resource_name with
        | false => simp [hsub, hrg, hvm, hname]
        | true => simp [hsub, hrg, hvm, hname]
      | true => simp [hsub, hrg, hvm, hinv hvm]

/-- C9: after resolution the resource URI is the unconfigured sentinel
(`None`) exactly when the subscription id or the resource group is
still missing (not truthy), or the host is not a scale-set member and
the resource name is still missing; and with the sentinel in place
`send_metrics` returns not-accepted immediately — no token request and
no post is ever attempted. -/
theorem resource_uri_none_iff_insufficient_config (args : InitArgs) (env : EnvVars)
    (imds : Option ImdsCompute) (token : TokenOutcome)
    (batch : List ((String × ℚ) × PostResult)) :
    (buildResourceUri (resolveIdentity args env imds) = none ↔
      (truthy (resolveIdentity args env imds).subscription_id = false ∨
       truthy (resolveIdentity args env imds).resource_group = false ∨
       ((resolveIdentity args env imds).is_vmss = false ∧
        truthy (resolveIdentity args env imds).resource_name = false))) ∧
    send_metrics none token batch = ⟨false, false, 0, 0⟩ :=
  ⟨buildResourceUri_eq_none_iff _ (resolveIdentity_is_vmss_truthy args env imds), rfl⟩

/-!
## Claims about the monitor loop (C2)
-/

theorem runLoop_all_collectFailed (outs : List CycleOutcome) :
    ∀ cf n, (∀ o ∈ outs, o = CycleOutcome.collectFailed) → cf < 5 → 5 ≤ cf + outs.length →
    runLoop 5 outs cf n = (n + (5 - cf), StopReason.thresholdTripped) := by
  induction outs with
  | nil =>
    intro cf n _ hcf hlen
    simp only [List.length_nil] at hlen
    omega
  | cons o rest ih =>
    intro cf n hall hcf hlen
    have ho : o = CycleOutcome.collectFailed := hall o (List.mem_cons_self _ _)
    subst ho
    simp only [runLoop]
    by_cases hth : 5 ≤ cf + 1
    · rw [if_pos hth]
      have h1 : 5 - cf = 1 := by omega
      rw [h1]
    · rw [if_neg hth]
      rw [ih (cf + 1) (n + 1) (fun q hq => hall q (List.mem_cons_of_mem _ hq))
        (by omega) (by simp only [List.length_cons] at hlen; omega)]
      have h2 : n + 1 + (5 - (cf + 1)) = n + (5 - cf) := by omega
      rw [h2]

/-- C2 counterexample: five consecutive failed cycles do trip the
threshold and stop the loop after exactly 5 cycles — but the process
then exits with status 0, not non-zero (`main` never calls `sys.exit`
after `monitor.run()` returns). Moreover, when the failures are counted
by the loop-level `except Exception` handler, the threshold is never
checked: six exception cycles run 6 cycles (more than the threshold)
and the loop still does not trip. -/
theorem threshold_trip_exits_zero_and_exception_path_skips_check :
    run (List.replicate 5 CycleOutcome.collectFailed) = (5, StopReason.thresholdTripped) ∧
    mainExitCode true (List.replicate 5 CycleOutcome.collectFailed) = 0 ∧
    run (List.replicate 6 CycleOutcome.loopExn) = (6, StopReason.externalStop) :=
  ⟨rfl, rfl, rfl⟩

/-- C2 amended: every kind of cycle failure reported by
`collect_and_send_metrics` (an exception inside the cycle, an empty
scrape result, a failed forward) yields a failed cycle; when the
consecutive-failure counter reaches the threshold (5) through such
failed cycles the loop breaks and runs no further cycle — but the
process then exits with status 0, not non-zero; and failures counted by
the loop-level exception handler bypass the threshold check entirely. -/
theorem threshold_trip_stops_loop_but_exit_is_zero (outs : List CycleOutcome)
    (metrics : List (String × ℚ)) (sendResult : Bool)
    (hall : ∀ o ∈ outs, o = CycleOutcome.collectFailed) (hlen : 5 ≤ outs.length) :
    collect_and_send_metrics true metrics sendResult = false ∧
    collect_and_send_metrics false [] sendResult = false ∧
    run outs = (5, StopReason.thresholdTripped) ∧
    mainExitCode true outs = 0 := by
  refine ⟨rfl, rfl, ?_, rfl⟩
  unfold run
  rw [runLoop_all_collectFailed outs 0 0 hall (by omega) (by omega)]

/-- Witness for `threshold_trip_stops_loop_but_exit_is_zero`: exactly
five failed cycles. -/
theorem threshold_trip_stops_loop_but_exit_is_zero_holds :
    collect_and_send_metrics true [("nginx_up", (1 : ℚ))] true = false ∧
    collect_and_send_metrics false [] true = false ∧
    run [CycleOutcome.collectFailed, CycleOutcome.collectFailed, CycleOutcome.collectFailed,
      CycleOutcome.collectFailed, CycleOutcome.collectFailed]
      = (5, StopReason.thresholdTripped) ∧
    mainExitCode true [CycleOutcome.collectFailed, CycleOutcome.collectFailed,
      CycleOutcome.collectFailed, CycleOutcome.collectFailed, CycleOutcome.collectFailed] = 0 :=
  threshold_trip_stops_loop_but_exit_is_zero _ [("nginx_up", 1)] true
    (by decide) (by decide)
